import Mathlib

/-!
Verification of the Library-management application
(`advanced_features_and_security/LibraryProject` and
`django-models/LibraryProject`).

The Python source is shallowly embedded: each view, form-cleaning method,
management command and query helper becomes an executable Lean function over
explicit state (the relevant database tables are lists of records, the
HTTP layer is a small response type).  Optional form fields are `Option`,
Python exceptions are `Except`, and Python truthiness (`if year:`,
`if title:`) is modelled explicitly where the source relies on it.
-/

namespace LibraryApp

/-- Decidable equality for `Except`, via the evident encoding as a sum. -/
def exceptToSum {ε α : Type} : Except ε α → ε ⊕ α
  | Except.error e => Sum.inl e
  | Except.ok a => Sum.inr a

instance {ε α : Type} [DecidableEq ε] [DecidableEq α] : DecidableEq (Except ε α) :=
  fun a b =>
    decidable_of_iff (exceptToSum a = exceptToSum b)
      (by cases a <;> cases b <;> simp [exceptToSum])

/-! ## Python string primitives used by the source -/

/-- The characters Python's `str.strip()` removes (ASCII whitespace). -/
def pyIsSpace (c : Char) : Bool :=
  c = ' ' || c = '\t' || c = '\n' || c = '\r' || c = '\x0b' || c = '\x0c'

/-- Python `str.strip()`: drop whitespace from both ends. -/
def pyStrip (s : String) : String :=
  String.mk (((s.data.dropWhile pyIsSpace).reverse.dropWhile pyIsSpace).reverse)

/-- Python truthiness of an optional string: `None` and `""` are falsy. -/
def pyStrTruthy : Option String → Bool
  | none => false
  | some s => s ≠ ""

/-- Python truthiness of an optional integer: `None` and `0` are falsy. -/
def pyIntTruthy : Option Int → Bool
  | none => false
  | some i => i ≠ 0

/-! ## bookshelf/forms.py — `ExampleForm` cleaning methods

`ExampleForm` is a ModelForm over `Book` with three custom cleaning
methods.  Each takes the field value from `cleaned_data` (absent = `none`)
and either raises a `ValidationError` (here `Except.error` carrying the
message) or returns the cleaned value. -/

/-- `ExampleForm.clean_title`:
`if title and len(title.strip()) == 0: raise ValidationError(...)`;
`return title.strip() if title else title`. -/
def clean_title (title : Option String) : Except String (Option String) :=
  if pyStrTruthy title ∧ pyStrip (title.getD "") = "" then
    Except.error "Title cannot be empty or whitespace only."
  else
    Except.ok (if pyStrTruthy title then (title.map pyStrip) else title)

/-- `ExampleForm.clean_author`: same shape as `clean_title`. -/
def clean_author (author : Option String) : Except String (Option String) :=
  if pyStrTruthy author ∧ pyStrip (author.getD "") = "" then
    Except.error "Author cannot be empty or whitespace only."
  else
    Except.ok (if pyStrTruthy author then (author.map pyStrip) else author)

/-- `ExampleForm.clean_publication_year`:
`if year:` guards the range check, so the check runs only when `year`
is truthy (not `None` and not `0`); `return year` otherwise. -/
def clean_publication_year (year : Option Int) : Except String (Option Int) :=
  if pyIntTruthy year then
    if (year.getD 0) < 1000 ∨ (year.getD 0) > 9999 then
      Except.error "Publication year must be between 1000 and 9999."
    else Except.ok year
  else Except.ok year

/-- The submitted field values of `ExampleForm`. -/
structure FormData where
  title : Option String
  author : Option String
  publication_year : Option Int
deriving DecidableEq, Repr

/-- Running the three `clean_<field>` methods of `ExampleForm`; the first
`ValidationError` makes the form invalid (a field-level error, nothing is
persisted because no cleaned data is produced). -/
def exampleFormClean (d : FormData) : Except String FormData := do
  let t ← clean_title d.title
  let a ← clean_author d.author
  let y ← clean_publication_year d.publication_year
  Except.ok ⟨t, a, y⟩

/-! ## The HTTP layer and the request user

A view receives the request's user and method and the current database
state, and produces a response together with the new state.  `forbidden`
is the `PermissionDenied` exception raised by
`permission_required(..., raise_exception=True)` (HTTP 403); `notFound`
is `Http404` from `get_object_or_404`; `redirected` carries the redirect
target (for `user_passes_test` denials that target is the login URL). -/

inductive HttpResponse where
  | rendered (template : String)
  | redirected (target : String)
  | forbidden
  | notFound
deriving DecidableEq, Repr

/-- The request's user: authentication flag, the related
`UserProfile.role` when a profile exists (`relationship_app`), and the
set of granted permission strings (used by `user.has_perm`). -/
structure User where
  is_authenticated : Bool
  profileRole : Option String
  perms : List String
deriving DecidableEq, Repr

/-- `user.has_perm(p)`: the permission string is among the user's grants. -/
def User.has_perm (u : User) (p : String) : Bool :=
  p ∈ u.perms

/-- A row of the `bookshelf.Book` table. -/
structure BookRow where
  id : Nat
  title : String
  author : String
  publication_year : Int
deriving DecidableEq, Repr

/-- Result of running a view: the response and the table state after it. -/
structure ViewResult where
  response : HttpResponse
  db : List BookRow
deriving DecidableEq, Repr

namespace Bookshelf

/-- `bookshelf.views.add_book`.  The decorator
`@permission_required('bookshelf.can_create', raise_exception=True)`
raises `PermissionDenied` before the body runs.  The body builds a
`BookForm` (a plain ModelForm with no custom cleaning; its validity and
the row it would save depend on model constraints, so they are the
`formValid`/`newBook` parameters) and saves only on a valid POST. -/
def add_book (u : User) (db : List BookRow) (method : String)
    (formValid : Bool) (newBook : BookRow) : ViewResult :=
  if u.has_perm "bookshelf.can_create" then
    if method = "POST" ∧ formValid then
      ⟨HttpResponse.redirected "relationship_app:book_list", db ++ [newBook]⟩
    else
      ⟨HttpResponse.rendered "relationship_app/book_form.html", db⟩
  else
    ⟨HttpResponse.forbidden, db⟩

/-- `bookshelf.views.edit_book`.  Decorated with
`@permission_required('bookshelf.can_edit', raise_exception=True)`;
`get_object_or_404`, then `BookForm(request.POST, instance=book)` —
a valid POST replaces the row, anything else renders the form. -/
def edit_book (u : User) (db : List BookRow) (method : String) (pk : Nat)
    (formValid : Bool) (newBook : BookRow) : ViewResult :=
  if u.has_perm "bookshelf.can_edit" then
    match db.find? (fun b => b.id = pk) with
    | none => ⟨HttpResponse.notFound, db⟩
    | some _ =>
      if method = "POST" ∧ formValid then
        ⟨HttpResponse.redirected "relationship_app:book_list",
         db.map (fun b => if b.id = pk then newBook else b)⟩
      else
        ⟨HttpResponse.rendered "relationship_app/book_form.html", db⟩
  else
    ⟨HttpResponse.forbidden, db⟩

/-- `bookshelf.views.delete_book`.  Decorated with
`@permission_required('bookshelf.can_delete', raise_exception=True)`;
then `get_object_or_404(Book, pk=pk)`; the book is deleted only when
`request.method == 'POST'`, otherwise the confirmation template is
rendered. -/
def delete_book (u : User) (db : List BookRow) (method : String) (pk : Nat) : ViewResult :=
  if u.has_perm "bookshelf.can_delete" then
    match db.find? (fun b => b.id = pk) with
    | none => ⟨HttpResponse.notFound, db⟩
    | some _ =>
      if method = "POST" then
        ⟨HttpResponse.redirected "relationship_app:book_list", db.filter (fun b => b.id ≠ pk)⟩
      else
        ⟨HttpResponse.rendered "relationship_app/book_confirm_delete.html", db⟩
  else
    ⟨HttpResponse.forbidden, db⟩

end Bookshelf

namespace RelationshipApp

/-- `relationship_app.views._has_role`: authenticated, has a
`userprofile`, and its role equals the required one. -/
def has_role (u : User) (role : String) : Bool :=
  u.is_authenticated && (match u.profileRole with
    | some r => r = role
    | none => false)

/-- `relationship_app.views.admin_view`, decorated
`@user_passes_test(lambda u: _has_role(u, 'Admin'))`.  `user_passes_test`
is used without `raise_exception`, so a failing test redirects to the
login URL (`settings.LOGIN_URL`, modelled as the target string "login")
instead of raising `PermissionDenied`. -/
def admin_view (u : User) : HttpResponse :=
  if has_role u "Admin" then
    HttpResponse.rendered "relationship_app/admin_view.html"
  else
    HttpResponse.redirected "login"

/-- `relationship_app.views.librarian_view`: same shape for the
`Librarian` role. -/
def librarian_view (u : User) : HttpResponse :=
  if has_role u "Librarian" then
    HttpResponse.rendered "relationship_app/librarian_view.html"
  else
    HttpResponse.redirected "login"

/-- `relationship_app.views.member_view`: same shape for the `Member`
role. -/
def member_view (u : User) : HttpResponse :=
  if has_role u "Member" then
    HttpResponse.rendered "relationship_app/member_view.html"
  else
    HttpResponse.redirected "login"

/-- `relationship_app.views.delete_book`, decorated
`@permission_required('relationship_app.can_delete_book',
raise_exception=True)`; identical control flow to the bookshelf view. -/
def delete_book (u : User) (db : List BookRow) (method : String) (pk : Nat) : ViewResult :=
  if u.has_perm "relationship_app.can_delete_book" then
    match db.find? (fun b => b.id = pk) with
    | none => ⟨HttpResponse.notFound, db⟩
    | some _ =>
      if method = "POST" then
        ⟨HttpResponse.redirected "relationship_app:book-list", db.filter (fun b => b.id ≠ pk)⟩
      else
        ⟨HttpResponse.rendered "relationship_app/book_confirm_delete.html", db⟩
  else
    ⟨HttpResponse.forbidden, db⟩

end RelationshipApp

/-! ## bookshelf/management/commands/create_groups.py

A `Group` row is a name plus the set of assigned permission codenames
(`group.permissions.set(...)` replaces the whole set).  `avail` is the
set of permission codenames that exist in the `Permission` table for the
`Book` content type (after `migrate` all four exist); the command's
`perms` dict holds exactly the codenames of that list that are among the
four it looks up, warning about the missing ones without stopping. -/

structure GroupRec where
  name : String
  perms : List String
deriving DecidableEq, Repr

/-- The four Book permission codenames the command looks up. -/
def bookPermCodenames : List String :=
  ["can_view", "can_create", "can_edit", "can_delete"]

/-- The keys of the command's `perms` dict: the looked-up codenames that
exist in the `Permission` table. -/
def permsDict (avail : List String) : List String :=
  bookPermCodenames.filter (fun c => c ∈ avail)

/-- The command's `groups` mapping of group name to intended codenames. -/
def groupsSpec : List (String × List String) :=
  [("Admins", ["can_view", "can_create", "can_edit", "can_delete"]),
   ("Editors", ["can_view", "can_create", "can_edit"]),
   ("Viewers", ["can_view"])]

/-- `Group.objects.get_or_create(name=...)`: reuse the existing row or
append a fresh one (a new group has no permissions yet). -/
def getOrCreateGroup (gs : List GroupRec) (n : String) : List GroupRec :=
  if gs.any (fun g => g.name = n) then gs else gs ++ [⟨n, []⟩]

/-- `group.permissions.set(to_assign)`: replace the permission set of the
group(s) with that name. -/
def setGroupPerms (gs : List GroupRec) (n : String) (ps : List String) : List GroupRec :=
  gs.map (fun g => if g.name = n then ⟨n, ps⟩ else g)

/-- One iteration of the command's loop:
`group, created = Group.objects.get_or_create(name=group_name)`;
`to_assign = [perms[p] for p in group_perms if p in perms]`;
`group.permissions.set(to_assign)`. -/
def seedGroup (avail : List String) (gs : List GroupRec)
    (entry : String × List String) : List GroupRec :=
  setGroupPerms (getOrCreateGroup gs entry.1) entry.1
    (entry.2.filter (fun p => p ∈ permsDict avail))

/-- `create_groups` `Command.handle`: seed the three groups in order. -/
def create_groups (avail : List String) (gs : List GroupRec) : List GroupRec :=
  groupsSpec.foldl (seedGroup avail) gs

/-! ## bookshelf/management/commands/create_test_users.py

A user row for this command: the username, email and the names of the
groups the user belongs to.  The auth state is the user table plus the
names of the groups that exist. -/

structure UserRec where
  username : String
  email : String
  groups : List String
deriving DecidableEq, Repr

structure AuthState where
  users : List UserRec
  groupNames : List String
deriving DecidableEq, Repr

/-- `User.objects.get_or_create(username=..., defaults={'email': ...})`:
the existing row, or a fresh row appended to the table. -/
def getOrCreateUser (us : List UserRec) (username email : String) : List UserRec :=
  if us.any (fun u => u.username = username) then us
  else us ++ [⟨username, email, []⟩]

/-- One iteration of `create_test_users` `Command.handle` for the tuple
`(username, email, pwd, group_name)`: `get_or_create` the user (existing
user: a warning, no change); then `Group.objects.get(name=group_name)` —
on success `user.groups.clear()` followed by `user.groups.add(group)`,
on `Group.DoesNotExist` an error message and no membership change. -/
def seedTestUser (st : AuthState) (entry : String × String × String) : AuthState :=
  let us := getOrCreateUser st.users entry.1 entry.2.1
  if entry.2.2 ∈ st.groupNames then
    ⟨us.map (fun u => if u.username = entry.1 then ⟨u.username, u.email, [entry.2.2]⟩ else u),
     st.groupNames⟩
  else
    ⟨us, st.groupNames⟩

/-- The command's hard-coded user list (passwords omitted: they only
feed `set_password` on creation). -/
def testUsers : List (String × String × String) :=
  [("admin_user", "admin@example.com", "Admins"),
   ("editor_user", "editor@example.com", "Editors"),
   ("viewer_user", "viewer@example.com", "Viewers")]

/-- `create_test_users` `Command.handle`. -/
def create_test_users (st : AuthState) : AuthState :=
  testUsers.foldl seedTestUser st

/-! ## relationship_app/query_samples.py

The query helpers are embedded together with Python's name resolution,
because their bodies reference unbound names.  `PyExc` covers the
exceptions that can arise: `NameError` for an unbound name, and the
model-specific `DoesNotExist` (tagged with the model name).  A value in
a local scope is a `PyVal`. -/

inductive PyExc where
  | nameError (name : String)
  | doesNotExist (model : String)
deriving DecidableEq, Repr

inductive PyVal where
  | int (i : Int)
  | str (s : String)
deriving DecidableEq, Repr

/-- Resolving a variable reference against the names bound in the
function body: an unbound name raises `NameError`. -/
def evalName (scope : List (String × PyVal)) (n : String) : Except PyExc PyVal :=
  match scope.lookup n with
  | some v => Except.ok v
  | none => Except.error (PyExc.nameError n)

/-- Resolving a class reference against the classes imported in the
function body. -/
def checkClass (imported : List String) (n : String) : Except PyExc Unit :=
  if n ∈ imported then Except.ok () else Except.error (PyExc.nameError n)

/-- A Python `try/except` block: run the body, on an exception run the
handler (which may re-raise or swallow it). -/
def pyTry {α : Type} (body : Except PyExc α) (handler : PyExc → Except PyExc α) :
    Except PyExc α :=
  match body with
  | Except.ok a => Except.ok a
  | Except.error e => handler e

structure Author where
  id : Nat
  name : String
deriving DecidableEq, Repr

structure RelBook where
  id : Nat
  title : String
  authorId : Nat
deriving DecidableEq, Repr

structure Library where
  id : Nat
  name : String
deriving DecidableEq, Repr

structure Librarian where
  id : Nat
  name : String
  libraryId : Nat
deriving DecidableEq, Repr

/-- The `relationship_app` tables touched by the query helpers. -/
structure RelDb where
  authors : List Author
  books : List RelBook
  libraries : List Library
  librarians : List Librarian
deriving DecidableEq, Repr

/-- `Author.objects.get(name=<v>)` for an already-resolved value `v`. -/
def authorGetByName (db : RelDb) (v : PyVal) : Except PyExc Author :=
  match db.authors.find? (fun a => PyVal.str a.name = v) with
  | some a => Except.ok a
  | none => Except.error (PyExc.doesNotExist "Author")

/-- `query_samples.books_by_author`.  The try body's first expression is
`Author.objects.get(name=author_name)`; `author_name` is bound nowhere
(the function's only local is `author_id`), so evaluating it raises
`NameError` before any query runs.  The rest of the assignment (the
second tuple element `objects.filter(author=author)`) and the final
`return author.books.all()` are dead code, embedded as the lookup and
the related-set read they denote.  The handler catches only
`Author.DoesNotExist`. -/
def books_by_author (db : RelDb) (author_id : Int) : Except PyExc (List RelBook) :=
  pyTry
    (do
      let v ← evalName [("author_id", PyVal.int author_id)] "author_name"
      let author ← authorGetByName db v
      Except.ok (db.books.filter (fun b => b.authorId = author.id)))
    (fun e =>
      match e with
      | PyExc.doesNotExist "Author" => Except.ok []
      | e => Except.error e)

/-- `query_samples.librarian_for_library`.  The try body is
`Librarian.objects.get(library=library_name)`, but the function imports
only `Library`, so the class reference `Librarian` itself raises
`NameError` (and `library_name` is unbound too).  The `except
Librarian.DoesNotExist` clause must evaluate the same unbound class
name, so it re-raises `NameError` instead of matching. -/
def librarian_for_library (db : RelDb) (library_id : Int) :
    Except PyExc (Option Librarian) :=
  pyTry
    (do
      let _ ← checkClass ["Library"] "Librarian"
      let v ← evalName [("library_id", PyVal.int library_id)] "library_name"
      match db.librarians.find? (fun l => PyVal.int (Int.ofNat l.libraryId) = v) with
      | some l => Except.ok (some l)
      | none => Except.error (PyExc.doesNotExist "Librarian"))
    (fun e => do
      let _ ← checkClass ["Library"] "Librarian"
      match e with
      | PyExc.doesNotExist "Librarian" => Except.ok none
      | e => Except.error e)

/-- Helper for the test-user command: `get_or_create` always leaves a row
with the requested username in the table. -/
theorem getOrCreateUser_has_username (us : List UserRec) (n em : String) :
    ∃ u ∈ getOrCreateUser us n em, u.username = n := by
  by_cases h : us.any (fun u => u.username = n)
  · rcases List.any_eq_true.mp h with ⟨u, hu, hp⟩
    exact ⟨u, by simp [getOrCreateUser, h, hu], by simpa using hp⟩
  · exact ⟨⟨n, em, []⟩, by simp [getOrCreateUser, h], rfl⟩

end LibraryApp

namespace LibraryApp

/-- C1: the claim says `books_by_author(author_id)` returns an empty
result for an author id with no matching `Author` and raises no error.
The code instead raises `NameError` on every call: the try body reads
the unbound variable `author_name`, and `except Author.DoesNotExist`
does not catch `NameError`.  Evaluated at author id 1 over an empty
database (so no matching `Author` exists). -/
theorem books_by_author_always_raises :
    books_by_author ⟨[], [], [], []⟩ 1 = Except.error (PyExc.nameError "author_name")
    ∧ books_by_author ⟨[], [], [], []⟩ 1 ≠ Except.ok [] := by decide

/-- C2: running `create_groups` twice on a fresh database (with the four
Book permissions migrated) gives the same group table as one run:
exactly the groups Admins, Editors, Viewers with the claimed permission
sets, no duplicates and no error. -/
theorem create_groups_idempotent_fresh :
    create_groups bookPermCodenames (create_groups bookPermCodenames [])
      = create_groups bookPermCodenames []
    ∧ create_groups bookPermCodenames [] =
      [⟨"Admins", ["can_view", "can_create", "can_edit", "can_delete"]⟩,
       ⟨"Editors", ["can_view", "can_create", "can_edit"]⟩,
       ⟨"Viewers", ["can_view"]⟩] := by decide

/-- C3: a user without `bookshelf.can_delete` invoking `delete_book` on
any existing book receives `PermissionDenied` (403) and the book table
is left exactly as it was — the view body never runs. -/
theorem delete_book_denied_leaves_db (u : User) (db : List BookRow)
    (method : String) (pk : Nat)
    (hperm : u.has_perm "bookshelf.can_delete" = false)
    (_hbook : ∃ b ∈ db, b.id = pk) :
    (Bookshelf.delete_book u db method pk).response = HttpResponse.forbidden
    ∧ (Bookshelf.delete_book u db method pk).db = db := by
  simp [Bookshelf.delete_book, hperm]

theorem delete_book_denied_leaves_db_witness :
    ((⟨true, none, []⟩ : User).has_perm "bookshelf.can_delete" = false
      ∧ (∃ b ∈ [(⟨1, "T", "A", 2000⟩ : BookRow)], b.id = 1))
    ∧ ((Bookshelf.delete_book ⟨true, none, []⟩ [⟨1, "T", "A", 2000⟩] "POST" 1).response
          = HttpResponse.forbidden
       ∧ (Bookshelf.delete_book ⟨true, none, []⟩ [⟨1, "T", "A", 2000⟩] "POST" 1).db
          = [⟨1, "T", "A", 2000⟩]) :=
  ⟨⟨by decide, by decide⟩,
   delete_book_denied_leaves_db ⟨true, none, []⟩ [⟨1, "T", "A", 2000⟩] "POST" 1
     (by decide) (by decide)⟩

/-- C4 fails as stated: a role-check denial is not an access-denied
failure.  An authenticated user whose profile role is Member fails the
`Admin` role test of `admin_view`, and because `user_passes_test` is
used without `raise_exception`, the view answers with a redirect to the
login URL, not with 403. -/
theorem role_denial_is_redirect :
    RelationshipApp.has_role ⟨true, some "Member", []⟩ "Admin" = false
    ∧ RelationshipApp.admin_view ⟨true, some "Member", []⟩ = HttpResponse.redirected "login"
    ∧ RelationshipApp.admin_view ⟨true, some "Member", []⟩ ≠ HttpResponse.forbidden := by decide

/-- C4 amended: fine-grained permission denials on the create/edit/delete
views (decorated `permission_required(..., raise_exception=True)`) give
an explicit access-denied failure with the database untouched, while a
role-check denial on the role-gated views redirects to the login URL
instead. -/
theorem perm_denied_forbidden_role_denied_redirect
    (u1 u2 u3 u4 u5 u6 : User) (db : List BookRow)
    (method : String) (pk : Nat) (fv : Bool) (nb : BookRow)
    (hc : u1.has_perm "bookshelf.can_create" = false)
    (he : u2.has_perm "bookshelf.can_edit" = false)
    (hd : u3.has_perm "bookshelf.can_delete" = false)
    (ha : RelationshipApp.has_role u4 "Admin" = false)
    (hl : RelationshipApp.has_role u5 "Librarian" = false)
    (hm : RelationshipApp.has_role u6 "Member" = false) :
    ((Bookshelf.add_book u1 db method fv nb).response = HttpResponse.forbidden
      ∧ (Bookshelf.add_book u1 db method fv nb).db = db)
    ∧ ((Bookshelf.edit_book u2 db method pk fv nb).response = HttpResponse.forbidden
      ∧ (Bookshelf.edit_book u2 db method pk fv nb).db = db)
    ∧ ((Bookshelf.delete_book u3 db method pk).response = HttpResponse.forbidden
      ∧ (Bookshelf.delete_book u3 db method pk).db = db)
    ∧ RelationshipApp.admin_view u4 = HttpResponse.redirected "login"
    ∧ RelationshipApp.librarian_view u5 = HttpResponse.redirected "login"
    ∧ RelationshipApp.member_view u6 = HttpResponse.redirected "login" := by
  simp [Bookshelf.add_book, Bookshelf.edit_book, Bookshelf.delete_book,
        RelationshipApp.admin_view, RelationshipApp.librarian_view,
        RelationshipApp.member_view, hc, he, hd, ha, hl, hm]

theorem perm_denied_forbidden_role_denied_redirect_witness :
    ((⟨true, some "Member", ["bookshelf.can_edit", "bookshelf.can_delete"]⟩
        : User).has_perm "bookshelf.can_create" = false
      ∧ (⟨true, none, ["bookshelf.can_create", "bookshelf.can_delete"]⟩
          : User).has_perm "bookshelf.can_edit" = false
      ∧ (⟨true, some "Librarian", ["bookshelf.can_create", "bookshelf.can_edit"]⟩
          : User).has_perm "bookshelf.can_delete" = false
      ∧ RelationshipApp.has_role ⟨true, some "Member", ["bookshelf.can_create"]⟩ "Admin" = false
      ∧ RelationshipApp.has_role ⟨true, some "Admin", []⟩ "Librarian" = false
      ∧ RelationshipApp.has_role ⟨true, some "Librarian", []⟩ "Member" = false)
    ∧ (((Bookshelf.add_book ⟨true, some "Member", ["bookshelf.can_edit", "bookshelf.can_delete"]⟩
            [⟨1, "T", "A", 2000⟩] "POST" true ⟨2, "U", "B", 2001⟩).response
          = HttpResponse.forbidden
        ∧ (Bookshelf.add_book ⟨true, some "Member", ["bookshelf.can_edit", "bookshelf.can_delete"]⟩
            [⟨1, "T", "A", 2000⟩] "POST" true ⟨2, "U", "B", 2001⟩).db = [⟨1, "T", "A", 2000⟩])
      ∧ ((Bookshelf.edit_book ⟨true, none, ["bookshelf.can_create", "bookshelf.can_delete"]⟩
            [⟨1, "T", "A", 2000⟩] "POST" 1 true ⟨2, "U", "B", 2001⟩).response
          = HttpResponse.forbidden
        ∧ (Bookshelf.edit_book ⟨true, none, ["bookshelf.can_create", "bookshelf.can_delete"]⟩
            [⟨1, "T", "A", 2000⟩] "POST" 1 true ⟨2, "U", "B", 2001⟩).db = [⟨1, "T", "A", 2000⟩])
      ∧ ((Bookshelf.delete_book ⟨true, some "Librarian", ["bookshelf.can_create", "bookshelf.can_edit"]⟩
            [⟨1, "T", "A", 2000⟩] "POST" 1).response = HttpResponse.forbidden
        ∧ (Bookshelf.delete_book ⟨true, some "Librarian", ["bookshelf.can_create", "bookshelf.can_edit"]⟩
            [⟨1, "T", "A", 2000⟩] "POST" 1).db = [⟨1, "T", "A", 2000⟩])
      ∧ RelationshipApp.admin_view ⟨true, some "Member", ["bookshelf.can_create"]⟩
          = HttpResponse.redirected "login"
      ∧ RelationshipApp.librarian_view ⟨true, some "Admin", []⟩
          = HttpResponse.redirected "login"
      ∧ RelationshipApp.member_view ⟨true, some "Librarian", []⟩
          = HttpResponse.redirected "login") :=
  ⟨⟨by decide, by decide, by decide, by decide, by decide, by decide⟩,
   perm_denied_forbidden_role_denied_redirect
     ⟨true, some "Member", ["bookshelf.can_edit", "bookshelf.can_delete"]⟩
     ⟨true, none, ["bookshelf.can_create", "bookshelf.can_delete"]⟩
     ⟨true, some "Librarian", ["bookshelf.can_create", "bookshelf.can_edit"]⟩
     ⟨true, some "Member", ["bookshelf.can_create"]⟩
     ⟨true, some "Admin", []⟩
     ⟨true, some "Librarian", []⟩
     [⟨1, "T", "A", 2000⟩] "POST" 1 true ⟨2, "U", "B", 2001⟩
     (by decide) (by decide) (by decide) (by decide) (by decide) (by decide)⟩

/-- C5: the claim says every `publication_year` outside [1000, 9999] is
rejected at validation time, but `clean_publication_year` guards the
range check with `if year:` and the integer 0 is falsy in Python, so the
out-of-range value 0 is returned as cleaned data with no error — while
the neighbouring out-of-range values 999 and 10000 are rejected as the
claim describes. -/
theorem clean_publication_year_accepts_zero :
    clean_publication_year (some 0) = Except.ok (some 0)
    ∧ clean_publication_year (some 999)
        = Except.error "Publication year must be between 1000 and 9999."
    ∧ clean_publication_year (some 10000)
        = Except.error "Publication year must be between 1000 and 9999." := by decide

/-- C6: a title consisting only of whitespace is truthy but strips to
the empty string, so `clean_title` raises the field-level
`ValidationError` and the whole form clean stops with that error —
no cleaned data is produced, hence nothing can be persisted. -/
theorem whitespace_title_rejected :
    clean_title (some "  ") = Except.error "Title cannot be empty or whitespace only."
    ∧ exampleFormClean ⟨some "  ", some "Jane", some 2000⟩
        = Except.error "Title cannot be empty or whitespace only." := by decide

/-- C7: the claim says `librarian_for_library(library_id)` returns an
absent result when the library has no Librarian and raises no error.
The code instead raises `NameError` on every call: the function imports
only `Library`, so the class reference `Librarian` in the try body is
unbound, and the `except Librarian.DoesNotExist` clause re-raises the
same `NameError` while handling it.  Evaluated at library id 1 over an
empty database (so no Librarian is assigned). -/
theorem librarian_for_library_always_raises :
    librarian_for_library ⟨[], [], [], []⟩ 1 = Except.error (PyExc.nameError "Librarian")
    ∧ librarian_for_library ⟨[], [], [], []⟩ 1 ≠ Except.ok none := by decide

/-- C8: when the test-user command assigns a user to an existing group,
`user.groups.clear()` followed by `user.groups.add(group)` leaves the
user a member of exactly that one group; prior memberships are replaced,
never accumulated. -/
theorem seed_assignment_replaces_membership (st : AuthState)
    (username email gname : String) (hg : gname ∈ st.groupNames) :
    (∃ u ∈ (seedTestUser st (username, email, gname)).users,
        u.username = username ∧ u.groups = [gname])
    ∧ ∀ u ∈ (seedTestUser st (username, email, gname)).users,
        u.username = username → u.groups = [gname] := by
  have husers : (seedTestUser st (username, email, gname)).users
      = (getOrCreateUser st.users username email).map
          (fun u => if u.username = username then ⟨u.username, u.email, [gname]⟩ else u) := by
    simp [seedTestUser, hg]
  rw [husers]
  constructor
  · obtain ⟨u, hu, hn⟩ := getOrCreateUser_has_username st.users username email
    exact ⟨⟨u.username, u.email, [gname]⟩,
      List.mem_map.mpr ⟨u, hu, by simp [hn]⟩, by simpa using hn, rfl⟩
  · intro x hx hxu
    obtain ⟨y, hy, hfy⟩ := List.mem_map.mp hx
    by_cases h2 : y.username = username
    · rw [← hfy]; simp [h2]
    · rw [← hfy] at hxu; simp [h2] at hxu

theorem seed_assignment_replaces_membership_witness :
    ("Admins" ∈ (⟨[⟨"admin_user", "a@e.com", ["Old1", "Old2"]⟩], ["Admins"]⟩
        : AuthState).groupNames)
    ∧ ((∃ u ∈ (seedTestUser ⟨[⟨"admin_user", "a@e.com", ["Old1", "Old2"]⟩], ["Admins"]⟩
            ("admin_user", "admin@example.com", "Admins")).users,
          u.username = "admin_user" ∧ u.groups = ["Admins"])
       ∧ ∀ u ∈ (seedTestUser ⟨[⟨"admin_user", "a@e.com", ["Old1", "Old2"]⟩], ["Admins"]⟩
            ("admin_user", "admin@example.com", "Admins")).users,
          u.username = "admin_user" → u.groups = ["Admins"]) :=
  ⟨by decide,
   seed_assignment_replaces_membership
     ⟨[⟨"admin_user", "a@e.com", ["Old1", "Old2"]⟩], ["Admins"]⟩
     "admin_user" "admin@example.com" "Admins" (by decide)⟩

/-- C9: any title and author values that survive validation come out of
`clean_<field>` stripped: whenever the stripped string is non-empty the
cleaning method returns exactly the stripped string, so persisted titles
and author names never carry leading or trailing whitespace. -/
theorem accepted_title_author_trimmed (t a : String)
    (ht : pyStrip t ≠ "") (ha : pyStrip a ≠ "") :
    clean_title (some t) = Except.ok (some (pyStrip t))
    ∧ clean_author (some a) = Except.ok (some (pyStrip a)) := by
  have ht0 : t ≠ "" := by intro h; subst h; exact ht (by decide)
  have ha0 : a ≠ "" := by intro h; subst h; exact ha (by decide)
  constructor
  · simp [clean_title, pyStrTruthy, ht0, ht]
  · simp [clean_author, pyStrTruthy, ha0, ha]

theorem accepted_title_author_trimmed_witness :
    (pyStrip " x " ≠ "" ∧ pyStrip " y " ≠ "")
    ∧ (clean_title (some " x ") = Except.ok (some (pyStrip " x "))
       ∧ clean_author (some " y ") = Except.ok (some (pyStrip " y "))) :=
  ⟨by decide, accepted_title_author_trimmed " x " " y " (by decide) (by decide)⟩

/-- C10: for a non-POST request by a user with delete permission on an
existing book, both `delete_book` views render the confirmation template
and leave the book table unchanged; actual deletion happens only on
POST. -/
theorem delete_only_on_post (u : User) (db rdb : List BookRow)
    (method : String) (pk : Nat)
    (hm : method ≠ "POST")
    (hp : u.has_perm "bookshelf.can_delete" = true)
    (hex : ∃ b ∈ db, b.id = pk) :
    (Bookshelf.delete_book u db method pk).db = db
    ∧ (RelationshipApp.delete_book u rdb method pk).db = rdb
    ∧ (Bookshelf.delete_book u db method pk).response
        = HttpResponse.rendered "relationship_app/book_confirm_delete.html" := by
  have hfind : ∃ b, db.find? (fun b => b.id = pk) = some b := by
    cases hf : db.find? (fun b => b.id = pk) with
    | none =>
        exfalso
        obtain ⟨b, hb, hbid⟩ := hex
        have := List.find?_eq_none.mp hf b hb
        simp [hbid] at this
    | some b => exact ⟨b, rfl⟩
  obtain ⟨b, hb⟩ := hfind
  refine ⟨?_, ?_, ?_⟩
  · simp [Bookshelf.delete_book, hp, hb, hm]
  · by_cases hp2 : u.has_perm "relationship_app.can_delete_book" = true
    · cases hf2 : rdb.find? (fun b => b.id = pk) with
      | none => simp [RelationshipApp.delete_book, hp2, hf2]
      | some b2 => simp [RelationshipApp.delete_book, hp2, hf2, hm]
    · simp [RelationshipApp.delete_book, hp2]
  · simp [Bookshelf.delete_book, hp, hb, hm]

theorem delete_only_on_post_witness :
    (("GET" : String) ≠ "POST"
      ∧ (⟨true, none, ["bookshelf.can_delete"]⟩ : User).has_perm "bookshelf.can_delete" = true
      ∧ (∃ b ∈ [(⟨1, "T", "A", 2000⟩ : BookRow)], b.id = 1))
    ∧ ((Bookshelf.delete_book ⟨true, none, ["bookshelf.can_delete"]⟩
          [⟨1, "T", "A", 2000⟩] "GET" 1).db = [⟨1, "T", "A", 2000⟩]
       ∧ (RelationshipApp.delete_book ⟨true, none, ["bookshelf.can_delete"]⟩ [] "GET" 1).db = []
       ∧ (Bookshelf.delete_book ⟨true, none, ["bookshelf.can_delete"]⟩
            [⟨1, "T", "A", 2000⟩] "GET" 1).response
          = HttpResponse.rendered "relationship_app/book_confirm_delete.html") :=
  ⟨⟨by decide, by decide, by decide⟩,
   delete_only_on_post ⟨true, none, ["bookshelf.can_delete"]⟩ [⟨1, "T", "A", 2000⟩] [] "GET" 1
     (by decide) (by decide) (by decide)⟩

end LibraryApp
